import Mathlib

/-!
Shallow embedding of the concurrency primitives of the
`rust_atomics_book_studies` repository: the one-shot channel family
(chapter 5), the reference-counted shared pointer `Arc` (chapter 6) and the
`SpinLock` (chapter 4).

The embedding is sequential: each Rust method becomes a pure function on an
explicit channel / control-block / lock state.  A Rust `panic!` becomes an
`Except.error` carrying the panic message; the possibly-uninitialized
`MaybeUninit<T>` slot is modelled as an `Option T` (`some v` = initialized
with `v`); reading the slot while uninitialized (undefined behavior in the
source) is modelled as a distinguished error.  `usize` arithmetic is `Nat`
with explicit wrapping modulo `2 ^ 64` where the source can wrap.
Concurrent histories of `Arc` clones/drops and of lock acquisitions/releases
are modelled as traces of atomic steps, with a decidable validity predicate
recording the precondition under which each step actually executes.
-/

set_option maxHeartbeats 1000000

instance {ε α : Type} [DecidableEq ε] [DecidableEq α] :
    DecidableEq (Except ε α) := fun a b =>
  match a, b with
  | .error e1, .error e2 =>
    if h : e1 = e2 then .isTrue (by rw [h]) else
      .isFalse (by intro hc; cases hc; exact h rfl)
  | .error _, .ok _ => .isFalse (by intro hc; cases hc)
  | .ok _, .error _ => .isFalse (by intro hc; cases hc)
  | .ok v1, .ok v2 =>
    if h : v1 = v2 then .isTrue (by rw [h]) else
      .isFalse (by intro hc; cases hc; exact h rfl)

/-- Result of running a fallible (possibly panicking) operation: the state the
data structure is left in together with either the returned value or the
panic message. -/
structure Outcome (σ : Type) (α : Type) where
  state : σ
  result : Except String α
deriving Repr, DecidableEq

namespace TwoFlag

/-- `Channel<T>` of `oneshot_channel.rs`: a `MaybeUninit<T>` slot plus the two
atomic flags `ready` (has a message to be received) and `in_use` (already
wrote a message). -/
structure Channel (T : Type) where
  message : Option T
  ready : Bool
  in_use : Bool
deriving Repr, DecidableEq

/-- `Channel::new`: uninitialized slot, both flags false. -/
def new (T : Type) : Channel T := ⟨none, false, false⟩

/-- `Channel::send`: `in_use.swap(true, Relaxed)`; panic if the old value was
true; otherwise write the slot and release-store `ready := true`. -/
def send {T : Type} (c : Channel T) (m : T) : Outcome (Channel T) Unit :=
  let old := c.in_use
  let c1 : Channel T := { c with in_use := true }
  if old then ⟨c1, .error "cannot send more than one message!"⟩
  else ⟨{ c1 with message := some m, ready := true }, .ok ()⟩

/-- `Channel::is_ready`: relaxed load of the ready flag. -/
def is_ready {T : Type} (c : Channel T) : Bool := c.ready

/-- `Channel::receive`: `ready.swap(false, Acquire)`; panic if the old value
was false; otherwise `assume_init_read` the slot (the slot keeps its bits;
only the flag records that the message was consumed). -/
def receive {T : Type} (c : Channel T) : Outcome (Channel T) T :=
  let old := c.ready
  let c1 : Channel T := { c with ready := false }
  if old then
    match c.message with
    | some v => ⟨c1, .ok v⟩
    | none => ⟨c1, .error "undefined behavior: uninitialized read"⟩
  else ⟨c1, .error "no message available!"⟩

/-- `impl Drop for Channel`: non-atomically inspect the ready flag; if (and
only if) it is set, `assume_init_drop` the slot.  Returns (slot touched?,
value whose destructor ran). -/
def dropChannel {T : Type} (c : Channel T) : Bool × Option T :=
  if c.ready then (true, c.message) else (false, none)

end TwoFlag

namespace MemOpt

/-- State-byte values of `mem_opt_oneshot_channel.rs`. -/
def EMPTY : Nat := 0

def WRITING : Nat := 1

def READY : Nat := 2

def READING : Nat := 3

/-- `Channel<T>` of `mem_opt_oneshot_channel.rs`: the slot plus one `AtomicU8`
state byte. -/
structure Channel (T : Type) where
  message : Option T
  state : Nat
deriving Repr, DecidableEq

/-- `Channel::new`: uninitialized slot, state `EMPTY`. -/
def new (T : Type) : Channel T := ⟨none, EMPTY⟩

/-- `state.compare_exchange(expected, target, _, _)`: on success the byte
becomes `target`; on failure it is left unchanged. -/
def casState {T : Type} (c : Channel T) (expected target : Nat) :
    Channel T × Bool :=
  if c.state = expected then ({ c with state := target }, true) else (c, false)

/-- `Channel::send`: CAS `EMPTY → WRITING` (panic on failure), write the
slot, then release-store `READY`. -/
def send {T : Type} (c : Channel T) (m : T) : Outcome (Channel T) Unit :=
  let r := casState c EMPTY WRITING
  if r.2 then
    let c2 : Channel T := { r.1 with message := some m }
    ⟨{ c2 with state := READY }, .ok ()⟩
  else ⟨r.1, .error "cannot send more than one message!"⟩

/-- `Channel::is_ready`: relaxed load, compared against `READY`. -/
def is_ready {T : Type} (c : Channel T) : Bool := c.state == READY

/-- `Channel::receive`: CAS `READY → READING` (panic on failure), then
`assume_init_read` the slot. -/
def receive {T : Type} (c : Channel T) : Outcome (Channel T) T :=
  let r := casState c READY READING
  if r.2 then
    match c.message with
    | some v => ⟨r.1, .ok v⟩
    | none => ⟨r.1, .error "undefined behavior: uninitialized read"⟩
  else ⟨r.1, .error "no message available!"⟩

/-- `impl Drop for Channel`: non-atomically inspect the state byte; drop the
slot content iff it equals `READY`. -/
def dropChannel {T : Type} (c : Channel T) : Bool × Option T :=
  if c.state = READY then (true, c.message) else (false, none)

/-- The successive values of the state byte during a call to `send` (initial
value first): the CAS either moves `EMPTY → WRITING` and the final store then
publishes `READY`, or it fails and the byte is never written. -/
def sendStates {T : Type} (c : Channel T) : List Nat :=
  let r := casState c EMPTY WRITING
  if r.2 then [c.state, r.1.state, READY] else [c.state]

/-- The successive values of the state byte during a call to `receive`
(initial value first): the CAS either moves `READY → READING` or fails
without writing the byte. -/
def receiveStates {T : Type} (c : Channel T) : List Nat :=
  let r := casState c READY READING
  if r.2 then [c.state, r.1.state] else [c.state]

/-- The three legal transitions of the state byte:
`EMPTY → WRITING → READY → READING`. -/
def allowedEdge (a b : Nat) : Prop :=
  (a = EMPTY ∧ b = WRITING) ∨ (a = WRITING ∧ b = READY) ∨
    (a = READY ∧ b = READING)

end MemOpt

namespace NoArc

/-- `Channel<T>` of `send_recv_oneshot_channel_noarc.rs`: slot plus one
`ready` flag; single-use of each endpoint is enforced by the type system
(`Sender`/`Receiver` are consumed), so there is no `in_use` flag. -/
structure Channel (T : Type) where
  message : Option T
  ready : Bool
deriving Repr, DecidableEq

/-- `Channel::new`. -/
def new (T : Type) : Channel T := ⟨none, false⟩

/-- `impl Drop for Channel`: identical to the two-flag variant. -/
def dropChannel {T : Type} (c : Channel T) : Bool × Option T :=
  if c.ready then (true, c.message) else (false, none)

/-- `Channel::split`: `*self = Self::new()` first drops the previous channel
value (running its `Drop`), then both returned handles borrow the same
freshly reset channel.  Returns (what the old channel's drop did, the channel
both handles now reference). -/
def split {T : Type} (c : Channel T) : (Bool × Option T) × Channel T :=
  (dropChannel c, new T)

/-- `Sender::send(self, m)`: consumes the handle, writes the slot, then
release-stores `ready := true`.  No runtime check is needed or present. -/
def send {T : Type} (c : Channel T) (m : T) : Channel T :=
  { c with message := some m, ready := true }

/-- `Receiver::is_ready`. -/
def is_ready {T : Type} (c : Channel T) : Bool := c.ready

/-- `Receiver::receive(self)`: `ready.swap(false, Acquire)`; panic if the old
value was false; otherwise read the slot. -/
def receive {T : Type} (c : Channel T) : Outcome (Channel T) T :=
  let old := c.ready
  let c1 : Channel T := { c with ready := false }
  if old then
    match c.message with
    | some v => ⟨c1, .ok v⟩
    | none => ⟨c1, .error "undefined behavior: uninitialized read"⟩
  else ⟨c1, .error "no message available!"⟩

end NoArc

namespace Blocking

/-- `Channel<T>` of `blocking_oneshot_channel.rs`: same data as the `NoArc`
variant. -/
structure Channel (T : Type) where
  message : Option T
  ready : Bool
deriving Repr, DecidableEq

/-- `Channel::new`. -/
def new (T : Type) : Channel T := ⟨none, false⟩

/-- `Sender` additionally captures the identity of the thread that performed
the split (`thread::current()`), modelled as a numeric thread id. -/
structure Sender where
  receiving_thread : Nat
deriving Repr, DecidableEq

/-- `impl Drop for Channel`: identical to the two-flag variant. -/
def dropChannel {T : Type} (c : Channel T) : Bool × Option T :=
  if c.ready then (true, c.message) else (false, none)

/-- `Channel::split`: `*self = Self::new()` drops the old channel, then the
`Sender` captures the current thread.  Returns (what the old channel's drop
did, the reset channel, the sender handle). -/
def split {T : Type} (c : Channel T) (currentThread : Nat) :
    (Bool × Option T) × Channel T × Sender :=
  (dropChannel c, new T, ⟨currentThread⟩)

/-- `Sender::send(self, m)`: write the slot, release-store `ready := true`,
then unpark the captured thread.  Returns the channel state and the id of the
unparked thread. -/
def send {T : Type} (s : Sender) (c : Channel T) (m : T) : Channel T × Nat :=
  ({ c with message := some m, ready := true }, s.receiving_thread)

/-- `Receiver::is_ready`. -/
def is_ready {T : Type} (c : Channel T) : Bool := c.ready

/-- Result of the blocking receive loop: either the loop exited with the
channel state and the slot it read, or the thread is still parked when the
fuel runs out. -/
inductive RecvResult (T : Type) where
  | value (c : Channel T) (slot : Option T)
  | waiting
deriving Repr, DecidableEq

/-- `Receiver::receive(self)`: `while !ready.swap(false, Acquire)
{ thread::park() }` then read the slot.  With no concurrent sender the state
seen by each iteration never becomes ready; `fuel` bounds how many park
iterations are unrolled. -/
def receiveLoop {T : Type} : Nat → Channel T → RecvResult T
  | 0, _ => .waiting
  | fuel + 1, c =>
    if c.ready then .value { c with ready := false } c.message
    else receiveLoop fuel { c with ready := false }

end Blocking

namespace ArcModel

/-- `usize::MAX` on the 64-bit targets the repository builds for. -/
def usizeMax : Nat := 2 ^ 64 - 1

/-- `ArcData<T>`: the control block pairing the atomic reference count with
the payload. -/
structure ArcData (T : Type) where
  ref_count : Nat
  data : T
deriving Repr, DecidableEq

/-- `ArcData::new` / `Arc::new`: count starts at 1. -/
def newData {T : Type} (v : T) : ArcData T := ⟨1, v⟩

/-- `Arc::get_mut`: relaxed load of the count; if it equals 1, acquire fence
and hand out `&mut data`, else `None`.  Returns (the mutable access granted,
the control block afterwards). -/
def get_mut {T : Type} (a : ArcData T) : Option T × ArcData T :=
  if a.ref_count = 1 then (some a.data, a) else (none, a)

/-- The count arithmetic of `impl Clone for Arc`:
`ref_count.fetch_add(1, Relaxed)` (wrapping on `usize`), then
`std::process::abort()` if the value before the increment exceeded
`usize::MAX / 2`.  `none` models the abort; `some` carries the new count. -/
def cloneCount (count : Nat) : Option Nat :=
  let newCount := (count + 1) % (usizeMax + 1)
  if count > usizeMax / 2 then none else some newCount

/-- `impl Clone for Arc` at the handle level: the handle is a raw pointer to
the control block (modelled as a numeric address); on the non-aborting path
the clone is `Arc { ptr: self.ptr }`, a new handle to the same control
block, returned together with the incremented count. -/
def cloneArc (ptr count : Nat) : Option (Nat × Nat) :=
  (cloneCount count).map fun c2 => (ptr, c2)

/-- The count arithmetic of `impl Drop for Arc`:
`ref_count.fetch_sub(1, Release)`, wrapping on `usize`. -/
def subCount (count : Nat) : Nat :=
  if 1 ≤ count then count - 1 else usizeMax

/-- One handle operation on a live `Arc`. -/
inductive ArcOp where
  | clone
  | drop
deriving Repr, DecidableEq

/-- State of a run: the control block's count, the number of live handles
(a ghost variable: handles exist in the client, not in the control block),
and how many times the payload's destructor has run. -/
structure ArcTraceState where
  count : Nat
  handles : Nat
  destroyed : Nat
deriving Repr, DecidableEq

/-- State right after `Arc::new`: one handle, count 1, payload alive. -/
def arcInit : ArcTraceState := ⟨1, 1, 0⟩

/-- One step of the protocol.  `clone` performs the `fetch_add`-and-abort of
`impl Clone` (`none` = the process aborted).  `drop` performs the
`fetch_sub` of `impl Drop`; the payload's destructor runs exactly when the
value observed before the decrement was 1. -/
def arcStep (s : ArcTraceState) : ArcOp → Option ArcTraceState
  | .clone =>
    (cloneCount s.count).map fun c2 => ⟨c2, s.handles + 1, s.destroyed⟩
  | .drop =>
    some ⟨subCount s.count, s.handles - 1,
      if s.count = 1 then s.destroyed + 1 else s.destroyed⟩

/-- A trace that actually executes: every operation is invoked on a live
handle (so at least one handle exists at the time), and no step aborted the
process. -/
def validTrace : ArcTraceState → List ArcOp → Bool
  | _, [] => true
  | s, op :: rest =>
    if s.handles = 0 then false
    else
      match arcStep s op with
      | none => false
      | some s2 => validTrace s2 rest

/-- Run a trace (an aborting step, excluded by `validTrace`, halts the run). -/
def arcRun : ArcTraceState → List ArcOp → ArcTraceState
  | s, [] => s
  | s, op :: rest =>
    match arcStep s op with
    | none => s
    | some s2 => arcRun s2 rest

end ArcModel

namespace SpinLockModel

/-- One atomic event at the `SpinLock`'s flag. -/
inductive LockOp where
  | acquire
  | spinFail
  | guardDrop
deriving Repr, DecidableEq

/-- The lock flag together with the (ghost) number of live `LockGuard`
objects. -/
structure LockState where
  locked : Bool
  guards : Nat
deriving Repr, DecidableEq

/-- `SpinLock::new`: unlocked, no guards. -/
def lockInit : LockState := ⟨false, 0⟩

/-- One step.  `acquire` is the iteration of `SpinLock::lock` whose
`locked.swap(true, Acquire)` returns false: it only executes when the flag
was false, sets it, and a `LockGuard` is created.  `spinFail` is an
iteration whose swap returns true: the flag was and stays true and the
caller keeps spinning.  `guardDrop` is `impl Drop for LockGuard`: it
requires a live guard and stores false to the flag. -/
def lockStep (s : LockState) : LockOp → Option LockState
  | .acquire => if s.locked then none else some ⟨true, s.guards + 1⟩
  | .spinFail => if s.locked then some s else none
  | .guardDrop =>
    if s.guards = 0 then none else some ⟨false, s.guards - 1⟩

/-- A trace of flag events that actually executes. -/
def lockValid : LockState → List LockOp → Bool
  | _, [] => true
  | s, op :: rest =>
    match lockStep s op with
    | none => false
    | some s2 => lockValid s2 rest

/-- Run a trace of flag events. -/
def lockRun : LockState → List LockOp → LockState
  | s, [] => s
  | s, op :: rest =>
    match lockStep s op with
    | none => s
    | some s2 => lockRun s2 rest

end SpinLockModel

/-!
## Theorems

One theorem per claim of the specification, preceded by the helper lemmas
its proof shares with nothing else.
-/

/-- C1: for every one-shot channel variant (the shared-reference two-flag
channel, the compact four-state channel, and the reference-based split
channel) and every value `v`, `send v` on a freshly constructed channel
(or freshly split pair) followed by `receive` returns exactly `v`. -/
theorem oneshot_send_receive_roundtrip (T : Type) (v : T) :
    (TwoFlag.receive (TwoFlag.send (TwoFlag.new T) v).state).result = .ok v ∧
    (MemOpt.receive (MemOpt.send (MemOpt.new T) v).state).result = .ok v ∧
    (NoArc.receive (NoArc.send (NoArc.split (NoArc.new T)).2 v)).result =
      .ok v := by
  refine ⟨rfl, ?_, rfl⟩
  simp [MemOpt.new, MemOpt.send, MemOpt.receive, MemOpt.casState,
    MemOpt.EMPTY, MemOpt.WRITING, MemOpt.READY, MemOpt.READING]

/-- C3: for every variant, dropping a channel holding a sent-but-unread
message runs that message's destructor exactly once; dropping a channel
never sent into, or whose message was already received, never touches the
slot; and the decision is taken from the final recorded state (the ready
flag, resp. the state byte) alone. -/
theorem channel_drop_destroys_iff_unread (T : Type) (v : T) :
    TwoFlag.dropChannel (TwoFlag.new T) = (false, none) ∧
    MemOpt.dropChannel (MemOpt.new T) = (false, none) ∧
    NoArc.dropChannel (NoArc.new T) = (false, none) ∧
    TwoFlag.dropChannel (TwoFlag.send (TwoFlag.new T) v).state =
      (true, some v) ∧
    MemOpt.dropChannel (MemOpt.send (MemOpt.new T) v).state =
      (true, some v) ∧
    NoArc.dropChannel (NoArc.send (NoArc.new T) v) = (true, some v) ∧
    TwoFlag.dropChannel
      (TwoFlag.receive (TwoFlag.send (TwoFlag.new T) v).state).state =
      (false, none) ∧
    MemOpt.dropChannel
      (MemOpt.receive (MemOpt.send (MemOpt.new T) v).state).state =
      (false, none) ∧
    NoArc.dropChannel (NoArc.receive (NoArc.send (NoArc.new T) v)).state =
      (false, none) ∧
    (∀ c : TwoFlag.Channel T, (TwoFlag.dropChannel c).1 = c.ready) ∧
    (∀ c : MemOpt.Channel T,
      ((MemOpt.dropChannel c).1 = true ↔ c.state = MemOpt.READY)) ∧
    (∀ c : NoArc.Channel T, (NoArc.dropChannel c).1 = c.ready) := by
  refine ⟨rfl, ?_, rfl, rfl, ?_, rfl, rfl, ?_, rfl, ?_, ?_, ?_⟩
  · simp [MemOpt.new, MemOpt.dropChannel, MemOpt.EMPTY, MemOpt.READY]
  · simp [MemOpt.new, MemOpt.send, MemOpt.casState, MemOpt.dropChannel,
      MemOpt.EMPTY, MemOpt.WRITING, MemOpt.READY]
  · simp [MemOpt.new, MemOpt.send, MemOpt.receive, MemOpt.casState,
      MemOpt.dropChannel, MemOpt.EMPTY, MemOpt.WRITING, MemOpt.READY,
      MemOpt.READING]
  · intro c
    by_cases h : c.ready <;> simp [TwoFlag.dropChannel, h]
  · intro c
    by_cases h : c.state = MemOpt.READY <;> simp [MemOpt.dropChannel, h]
  · intro c
    by_cases h : c.ready <;> simp [NoArc.dropChannel, h]

/-- C4: in the two shared-reference variants (the only ones on which a second
`send` can be expressed), a second call to `send` after a completed send
panics and leaves the channel — in particular its message slot — exactly as
it was. -/
theorem second_send_panics_slot_untouched (T : Type)
    (c : TwoFlag.Channel T) (d : MemOpt.Channel T) (v w : T)
    (hc : (TwoFlag.send c v).result = .ok ())
    (hd : (MemOpt.send d v).result = .ok ()) :
    (∃ msg, (TwoFlag.send (TwoFlag.send c v).state w).result = .error msg) ∧
    (TwoFlag.send (TwoFlag.send c v).state w).state =
      (TwoFlag.send c v).state ∧
    (∃ msg, (MemOpt.send (MemOpt.send d v).state w).result = .error msg) ∧
    (MemOpt.send (MemOpt.send d v).state w).state =
      (MemOpt.send d v).state := by
  by_cases hcu : c.in_use
  · simp [TwoFlag.send, hcu] at hc
  · by_cases hds : d.state = MemOpt.EMPTY
    · refine ⟨⟨"cannot send more than one message!", ?_⟩, ?_, ⟨"cannot send more than one message!", ?_⟩, ?_⟩ <;>
        simp [TwoFlag.send, MemOpt.send, MemOpt.casState, hcu, hds,
          MemOpt.EMPTY, MemOpt.WRITING, MemOpt.READY]
    · simp [MemOpt.send, MemOpt.casState, hds] at hd

/-- C4 witness: a fresh two-flag channel and a fresh compact channel, first
send of `1` succeeding, second send of `2` panicking without touching the
slot. -/
theorem second_send_panics_slot_untouched_witness :
    ((TwoFlag.send (TwoFlag.new Nat) 1).result = .ok () ∧
      (MemOpt.send (MemOpt.new Nat) 1).result = .ok ()) ∧
    ((∃ msg, (TwoFlag.send (TwoFlag.send (TwoFlag.new Nat) 1).state
        2).result = .error msg) ∧
      (TwoFlag.send (TwoFlag.send (TwoFlag.new Nat) 1).state 2).state =
        (TwoFlag.send (TwoFlag.new Nat) 1).state ∧
      (∃ msg, (MemOpt.send (MemOpt.send (MemOpt.new Nat) 1).state
        2).result = .error msg) ∧
      (MemOpt.send (MemOpt.send (MemOpt.new Nat) 1).state 2).state =
        (MemOpt.send (MemOpt.new Nat) 1).state) :=
  ⟨⟨rfl, rfl⟩,
    second_send_panics_slot_untouched Nat (TwoFlag.new Nat)
      (MemOpt.new Nat) 1 2 rfl rfl⟩

/-- C6: `Arc::get_mut` hands out mutable access to the payload iff the
observed reference count equals 1, returns `none` whenever it differs from 1
(in particular when two or more handles are live), and never modifies the
control block. -/
theorem get_mut_iff_count_one (T : Type) (a : ArcModel.ArcData T) :
    ((ArcModel.get_mut a).1 = some a.data ↔ a.ref_count = 1) ∧
    ((ArcModel.get_mut a).1 = none ↔ a.ref_count ≠ 1) ∧
    (ArcModel.get_mut a).2 = a := by
  by_cases h : a.ref_count = 1 <;> simp [ArcModel.get_mut, h]

/-- C7: `Arc::clone` increments the reference count by exactly one and
returns a new handle carrying the same control-block pointer; when the
pre-increment count exceeds `usize::MAX / 2` the process aborts instead of
returning. -/
theorem arc_clone_increment_or_abort (ptr n : Nat) :
    (n ≤ ArcModel.usizeMax / 2 →
      ArcModel.cloneArc ptr n = some (ptr, n + 1)) ∧
    (n > ArcModel.usizeMax / 2 → ArcModel.cloneArc ptr n = none) := by
  constructor
  · intro h
    have hlt : n + 1 < ArcModel.usizeMax + 1 := by
      have : ArcModel.usizeMax / 2 < ArcModel.usizeMax := by
        simp [ArcModel.usizeMax]
      omega
    simp [ArcModel.cloneArc, ArcModel.cloneCount, Nat.not_lt.mpr h,
      Nat.mod_eq_of_lt hlt]
  · intro h
    simp [ArcModel.cloneArc, ArcModel.cloneCount, h]

/-- C7 witness: cloning at count 1 yields a second handle to the same block
with count 2; cloning at count `usize::MAX / 2 + 1` aborts. -/
theorem arc_clone_increment_or_abort_witness :
    (1 ≤ ArcModel.usizeMax / 2 ∧ ArcModel.cloneArc 7 1 = some (7, 2)) ∧
    (ArcModel.usizeMax / 2 + 1 > ArcModel.usizeMax / 2 ∧
      ArcModel.cloneArc 7 (ArcModel.usizeMax / 2 + 1) = none) :=
  ⟨⟨by decide, (arc_clone_increment_or_abort 7 1).1 (by decide)⟩,
    ⟨Nat.lt_succ_self _,
      (arc_clone_increment_or_abort 7 (ArcModel.usizeMax / 2 + 1)).2
        (Nat.lt_succ_self _)⟩⟩

/-- C10: in both split variants, `split` overwrites the channel with a
freshly constructed one before returning the handle pair (dropping the old
channel value at that moment, which destroys a previously sent and never
received message exactly once), and immediately after every split the
channel is empty with `is_ready` reporting false. -/
theorem split_resets_channel (T : Type) (c : NoArc.Channel T)
    (d : Blocking.Channel T) (tid : Nat) (v : T) :
    (NoArc.split c).2 = NoArc.new T ∧
    NoArc.is_ready (NoArc.split c).2 = false ∧
    (Blocking.split d tid).2.1 = Blocking.new T ∧
    Blocking.is_ready (Blocking.split d tid).2.1 = false ∧
    (NoArc.split (NoArc.send c v)).1 = (true, some v) ∧
    (Blocking.split (Blocking.send ⟨tid⟩ d v).1 tid).1 = (true, some v) ∧
    (NoArc.split (NoArc.new T)).1 = (false, none) ∧
    (Blocking.split (Blocking.new T) tid).1 = (false, none) ∧
    (∀ e : NoArc.Channel T, (NoArc.split e).1 = NoArc.dropChannel e) ∧
    (∀ e : Blocking.Channel T,
      (Blocking.split e tid).1 = Blocking.dropChannel e) := by
  refine ⟨rfl, rfl, rfl, rfl, ?_, ?_, rfl, rfl, fun e => rfl, fun e => rfl⟩
  · simp [NoArc.split, NoArc.send, NoArc.dropChannel]
  · simp [Blocking.split, Blocking.send, Blocking.dropChannel]

/-- A valid `Arc` trace starting from a state with no live handles must be
empty: every operation is invoked through a live handle. -/
theorem arc_validTrace_handles_zero (ops : List ArcModel.ArcOp)
    (s : ArcModel.ArcTraceState) (h0 : s.handles = 0)
    (hv : ArcModel.validTrace s ops = true) : ops = [] := by
  cases ops with
  | nil => rfl
  | cons op rest => simp [ArcModel.validTrace, h0] at hv

/-- Inductive invariant of the `Arc` protocol: starting from any state where
the count equals the number of live handles, the destructor has not run and
a handle is live, a valid trace preserves count = handles and ends with the
destructor having run exactly once iff no handle is left. -/
theorem arc_run_invariant (ops : List ArcModel.ArcOp) :
    ∀ s : ArcModel.ArcTraceState, s.count = s.handles → s.destroyed = 0 →
      1 ≤ s.handles → ArcModel.validTrace s ops = true →
      (ArcModel.arcRun s ops).count = (ArcModel.arcRun s ops).handles ∧
      (ArcModel.arcRun s ops).destroyed =
        (if (ArcModel.arcRun s ops).handles = 0 then 1 else 0) := by
  induction ops with
  | nil =>
    intro s h1 h2 h3 _
    have hne : ¬ s.handles = 0 := by omega
    simpa [ArcModel.arcRun, hne] using ⟨h1, h2⟩
  | cons op rest ih =>
    intro s h1 h2 h3 hv
    have hne : ¬ s.handles = 0 := by omega
    cases op with
    | clone =>
      by_cases hcap : s.count > ArcModel.usizeMax / 2
      · simp [ArcModel.validTrace, hne, ArcModel.arcStep,
          ArcModel.cloneCount, hcap] at hv
      · have hlt : s.count + 1 < ArcModel.usizeMax + 1 := by
          have : ArcModel.usizeMax / 2 < ArcModel.usizeMax := by decide
          omega
        have hstep : ArcModel.arcStep s .clone =
            some ⟨s.count + 1, s.handles + 1, s.destroyed⟩ := by
          simp [ArcModel.arcStep, ArcModel.cloneCount, hcap,
            Nat.mod_eq_of_lt hlt]
        have hv2 : ArcModel.validTrace
            ⟨s.count + 1, s.handles + 1, s.destroyed⟩ rest = true := by
          simpa [ArcModel.validTrace, hne, hstep] using hv
        have hrun : ArcModel.arcRun s (.clone :: rest) =
            ArcModel.arcRun ⟨s.count + 1, s.handles + 1, s.destroyed⟩ rest := by
          simp [ArcModel.arcRun, hstep]
        rw [hrun]
        exact ih ⟨s.count + 1, s.handles + 1, s.destroyed⟩
          (by simp [h1]) h2 (by simp) hv2
    | drop =>
      by_cases hone : s.count = 1
      · have hh : s.handles = 1 := by omega
        have hstep : ArcModel.arcStep s .drop = some ⟨0, 0, 1⟩ := by
          simp [ArcModel.arcStep, ArcModel.subCount, hone, hh, h2]
        have hv2 : ArcModel.validTrace
            (⟨0, 0, 1⟩ : ArcModel.ArcTraceState) rest = true := by
          simpa [ArcModel.validTrace, hne, hstep] using hv
        have : rest = [] :=
          arc_validTrace_handles_zero rest ⟨0, 0, 1⟩ rfl hv2
        subst this
        simp [ArcModel.arcRun, hstep]
      · have h1le : 1 ≤ s.count := by omega
        have hstep : ArcModel.arcStep s .drop =
            some ⟨s.count - 1, s.handles - 1, s.destroyed⟩ := by
          simp [ArcModel.arcStep, ArcModel.subCount, hone, h1le]
        have hv2 : ArcModel.validTrace
            ⟨s.count - 1, s.handles - 1, s.destroyed⟩ rest = true := by
          simpa [ArcModel.validTrace, hne, hstep] using hv
        have hrun : ArcModel.arcRun s (.drop :: rest) =
            ArcModel.arcRun ⟨s.count - 1, s.handles - 1, s.destroyed⟩
              rest := by
          simp [ArcModel.arcRun, hstep]
        rw [hrun]
        exact ih ⟨s.count - 1, s.handles - 1, s.destroyed⟩
          (by simp; omega) h2 (by simp; omega) hv2

/-- C2: over every sequence of `Arc` operations that actually executes —
one `new`, then clones and drops each invoked through a live handle — the
count always equals the number of live handles (hence is at least 1 while
any handle exists), the payload's destructor has run exactly once when no
handle is left and has never run while one is; and a single step increments
the destruction counter exactly when it is a drop whose pre-decrement count
equals 1. -/
theorem arc_destructor_runs_exactly_once (ops : List ArcModel.ArcOp)
    (h : ArcModel.validTrace ArcModel.arcInit ops = true) :
    (ArcModel.arcRun ArcModel.arcInit ops).count =
      (ArcModel.arcRun ArcModel.arcInit ops).handles ∧
    (ArcModel.arcRun ArcModel.arcInit ops).destroyed =
      (if (ArcModel.arcRun ArcModel.arcInit ops).handles = 0
        then 1 else 0) ∧
    (∀ s s2 : ArcModel.ArcTraceState, ∀ op : ArcModel.ArcOp,
      ArcModel.arcStep s op = some s2 →
      (s2.destroyed = s.destroyed + 1 ↔ op = .drop ∧ s.count = 1)) := by
  have hmain := arc_run_invariant ops ArcModel.arcInit rfl rfl
    (by decide) h
  refine ⟨hmain.1, hmain.2, ?_⟩
  intro s s2 op hstep
  cases op with
  | clone =>
    have : s2.destroyed = s.destroyed := by
      cases hcl : ArcModel.cloneCount s.count with
      | none => simp [ArcModel.arcStep, hcl] at hstep
      | some c2 =>
        simp [ArcModel.arcStep, hcl] at hstep
        simp [← hstep]
    simp [this]
  | drop =>
    have hs2 : s2 = ⟨ArcModel.subCount s.count, s.handles - 1,
        if s.count = 1 then s.destroyed + 1 else s.destroyed⟩ := by
      simpa [ArcModel.arcStep] using hstep.symm
    by_cases hone : s.count = 1 <;> simp [hs2, hone]

/-- C2 witness: the trace clone, drop, drop from `Arc::new` (two handles,
both dropped): valid, and the theorem's conclusion holds for it. -/
theorem arc_destructor_runs_exactly_once_witness :
    ArcModel.validTrace ArcModel.arcInit
      [ArcModel.ArcOp.clone, ArcModel.ArcOp.drop, ArcModel.ArcOp.drop] =
      true ∧
    ((ArcModel.arcRun ArcModel.arcInit
        [ArcModel.ArcOp.clone, ArcModel.ArcOp.drop,
          ArcModel.ArcOp.drop]).count =
      (ArcModel.arcRun ArcModel.arcInit
        [ArcModel.ArcOp.clone, ArcModel.ArcOp.drop,
          ArcModel.ArcOp.drop]).handles ∧
    (ArcModel.arcRun ArcModel.arcInit
        [ArcModel.ArcOp.clone, ArcModel.ArcOp.drop,
          ArcModel.ArcOp.drop]).destroyed =
      (if (ArcModel.arcRun ArcModel.arcInit
          [ArcModel.ArcOp.clone, ArcModel.ArcOp.drop,
            ArcModel.ArcOp.drop]).handles = 0 then 1 else 0) ∧
    (∀ s s2 : ArcModel.ArcTraceState, ∀ op : ArcModel.ArcOp,
      ArcModel.arcStep s op = some s2 →
      (s2.destroyed = s.destroyed + 1 ↔
        op = .drop ∧ s.count = 1))) :=
  ⟨by decide, arc_destructor_runs_exactly_once _ (by decide)⟩

/-- Inductive invariant of the `SpinLock` flag protocol: from any state
where the flag is set iff exactly one guard is live (and at most one is),
every valid trace of flag events preserves that property. -/
theorem lock_run_invariant (ops : List SpinLockModel.LockOp) :
    ∀ s : SpinLockModel.LockState,
      (s.locked = true ↔ s.guards = 1) → s.guards ≤ 1 →
      SpinLockModel.lockValid s ops = true →
      ((SpinLockModel.lockRun s ops).locked = true ↔
        (SpinLockModel.lockRun s ops).guards = 1) ∧
      (SpinLockModel.lockRun s ops).guards ≤ 1 := by
  induction ops with
  | nil =>
    intro s h1 h2 _
    simpa [SpinLockModel.lockRun] using ⟨h1, h2⟩
  | cons op rest ih =>
    intro s h1 h2 hv
    cases op with
    | acquire =>
      by_cases hl : s.locked = true
      · simp [SpinLockModel.lockValid, SpinLockModel.lockStep, hl] at hv
      · have hg : s.guards = 0 := by
          have hne : s.guards ≠ 1 := fun hq => hl (h1.mpr hq)
          omega
        have hstep : SpinLockModel.lockStep s .acquire =
            some ⟨true, s.guards + 1⟩ := by
          simp [SpinLockModel.lockStep, hl]
        have hv2 : SpinLockModel.lockValid
            (⟨true, s.guards + 1⟩ : SpinLockModel.LockState) rest =
            true := by
          simpa [SpinLockModel.lockValid, hstep] using hv
        have hrun : SpinLockModel.lockRun s (.acquire :: rest) =
            SpinLockModel.lockRun ⟨true, s.guards + 1⟩ rest := by
          simp [SpinLockModel.lockRun, hstep]
        rw [hrun]
        exact ih ⟨true, s.guards + 1⟩ (by simp [hg]) (by simp [hg]) hv2
    | spinFail =>
      by_cases hl : s.locked = true
      · have hstep : SpinLockModel.lockStep s .spinFail = some s := by
          simp [SpinLockModel.lockStep, hl]
        have hv2 : SpinLockModel.lockValid s rest = true := by
          simpa [SpinLockModel.lockValid, hstep] using hv
        have hrun : SpinLockModel.lockRun s (.spinFail :: rest) =
            SpinLockModel.lockRun s rest := by
          simp [SpinLockModel.lockRun, hstep]
        rw [hrun]
        exact ih s h1 h2 hv2
      · simp [SpinLockModel.lockValid, SpinLockModel.lockStep, hl] at hv
    | guardDrop =>
      by_cases hg : s.guards = 0
      · simp [SpinLockModel.lockValid, SpinLockModel.lockStep, hg] at hv
      · have hstep : SpinLockModel.lockStep s .guardDrop =
            some ⟨false, s.guards - 1⟩ := by
          simp [SpinLockModel.lockStep, hg]
        have hg1 : s.guards = 1 := by omega
        have hv2 : SpinLockModel.lockValid
            (⟨false, s.guards - 1⟩ : SpinLockModel.LockState) rest =
            true := by
          simpa [SpinLockModel.lockValid, hstep] using hv
        have hrun : SpinLockModel.lockRun s (.guardDrop :: rest) =
            SpinLockModel.lockRun ⟨false, s.guards - 1⟩ rest := by
          simp [SpinLockModel.lockRun, hstep]
        rw [hrun]
        exact ih ⟨false, s.guards - 1⟩ (by simp [hg1]) (by simp [hg1]) hv2

/-- C9: along every valid trace of flag events from a fresh `SpinLock`, the
flag is true iff exactly one live guard exists (and never more than one);
an acquisition step executes only by winning the false-to-true exchange and
creates the guard; and the only step that changes the flag from true to
false is a guard's destruction. -/
theorem spinlock_flag_iff_one_guard (ops : List SpinLockModel.LockOp)
    (h : SpinLockModel.lockValid SpinLockModel.lockInit ops = true) :
    ((SpinLockModel.lockRun SpinLockModel.lockInit ops).locked = true ↔
      (SpinLockModel.lockRun SpinLockModel.lockInit ops).guards = 1) ∧
    (SpinLockModel.lockRun SpinLockModel.lockInit ops).guards ≤ 1 ∧
    (∀ s s2 : SpinLockModel.LockState,
      SpinLockModel.lockStep s .acquire = some s2 →
      s.locked = false ∧ s2.locked = true ∧ s2.guards = s.guards + 1) ∧
    (∀ s s2 : SpinLockModel.LockState, ∀ op : SpinLockModel.LockOp,
      SpinLockModel.lockStep s op = some s2 →
      s.locked = true → s2.locked = false → op = .guardDrop) := by
  have hmain := lock_run_invariant ops SpinLockModel.lockInit
    (by simp [SpinLockModel.lockInit]) (by simp [SpinLockModel.lockInit]) h
  refine ⟨hmain.1, hmain.2, ?_, ?_⟩
  · intro s s2 hstep
    by_cases hl : s.locked = true
    · simp [SpinLockModel.lockStep, hl] at hstep
    · simp [SpinLockModel.lockStep, hl] at hstep
      simp [← hstep, Bool.not_eq_true] at hl ⊢
      exact hl
  · intro s s2 op hstep hl1 hl2
    cases op with
    | acquire => simp [SpinLockModel.lockStep, hl1] at hstep
    | spinFail =>
      simp [SpinLockModel.lockStep, hl1] at hstep
      rw [← hstep] at hl2
      rw [hl1] at hl2
      cases hl2
    | guardDrop => rfl

/-- C9 witness: the trace acquire, guard drop, acquire on a fresh lock is
valid and the theorem's conclusion holds for it. -/
theorem spinlock_flag_iff_one_guard_witness :
    SpinLockModel.lockValid SpinLockModel.lockInit
      [SpinLockModel.LockOp.acquire, SpinLockModel.LockOp.guardDrop,
        SpinLockModel.LockOp.acquire] = true ∧
    (((SpinLockModel.lockRun SpinLockModel.lockInit
        [SpinLockModel.LockOp.acquire, SpinLockModel.LockOp.guardDrop,
          SpinLockModel.LockOp.acquire]).locked = true ↔
      (SpinLockModel.lockRun SpinLockModel.lockInit
        [SpinLockModel.LockOp.acquire, SpinLockModel.LockOp.guardDrop,
          SpinLockModel.LockOp.acquire]).guards = 1) ∧
    (SpinLockModel.lockRun SpinLockModel.lockInit
        [SpinLockModel.LockOp.acquire, SpinLockModel.LockOp.guardDrop,
          SpinLockModel.LockOp.acquire]).guards ≤ 1 ∧
    (∀ s s2 : SpinLockModel.LockState,
      SpinLockModel.lockStep s .acquire = some s2 →
      s.locked = false ∧ s2.locked = true ∧ s2.guards = s.guards + 1) ∧
    (∀ s s2 : SpinLockModel.LockState, ∀ op : SpinLockModel.LockOp,
      SpinLockModel.lockStep s op = some s2 →
      s.locked = true → s2.locked = false → op = .guardDrop)) :=
  ⟨by decide, spinlock_flag_iff_one_guard _ (by decide)⟩

/-- C8: in the memory-compact channel, `send` succeeds exactly when it finds
the state byte `EMPTY`, in which case the byte moves `EMPTY → WRITING`
(claiming the sole right to write), the payload is written, and only then
the byte becomes `READY`; from any other state `send` panics leaving the
channel unchanged and never writes the byte.  `receive` succeeds exactly
when it finds `READY`, moving the byte to `READING` before reading the
slot; from any other state it panics leaving the channel unchanged.  Every
write to the byte is one of the transitions
`EMPTY → WRITING → READY → READING`. -/
theorem memopt_state_machine (T : Type) (c : MemOpt.Channel T) (m : T) :
    ((MemOpt.send c m).result = .ok () ↔ c.state = MemOpt.EMPTY) ∧
    (c.state = MemOpt.EMPTY →
      MemOpt.sendStates c = [MemOpt.EMPTY, MemOpt.WRITING, MemOpt.READY] ∧
      List.Chain' MemOpt.allowedEdge (MemOpt.sendStates c) ∧
      (MemOpt.send c m).state.state = MemOpt.READY ∧
      (MemOpt.send c m).state.message = some m) ∧
    (c.state ≠ MemOpt.EMPTY →
      (MemOpt.send c m).state = c ∧
      (MemOpt.send c m).result =
        .error "cannot send more than one message!" ∧
      MemOpt.sendStates c = [c.state]) ∧
    ((∃ v, (MemOpt.receive c).result = .ok v) → c.state = MemOpt.READY) ∧
    (c.state = MemOpt.READY →
      MemOpt.receiveStates c = [MemOpt.READY, MemOpt.READING] ∧
      List.Chain' MemOpt.allowedEdge (MemOpt.receiveStates c) ∧
      (MemOpt.receive c).state.state = MemOpt.READING ∧
      (MemOpt.receive c).state.message = c.message ∧
      (∀ v, c.message = some v → (MemOpt.receive c).result = .ok v)) ∧
    (c.state ≠ MemOpt.READY →
      (MemOpt.receive c).state = c ∧
      (MemOpt.receive c).result = .error "no message available!" ∧
      MemOpt.receiveStates c = [c.state]) := by
  refine ⟨?_, ?_, ?_, ?_, ?_, ?_⟩
  · by_cases hE : c.state = MemOpt.EMPTY <;>
      simp [MemOpt.send, MemOpt.casState, hE]
  · intro hE
    refine ⟨?_, ?_, ?_, ?_⟩ <;>
      simp [MemOpt.sendStates, MemOpt.send, MemOpt.casState, hE,
        MemOpt.allowedEdge, MemOpt.EMPTY, MemOpt.WRITING, MemOpt.READY]
  · intro hE
    refine ⟨?_, ?_, ?_⟩ <;>
      simp [MemOpt.sendStates, MemOpt.send, MemOpt.casState, hE]
  · rintro ⟨v, hv⟩
    by_cases hR : c.state = MemOpt.READY
    · exact hR
    · simp [MemOpt.receive, MemOpt.casState, hR] at hv
  · intro hR
    refine ⟨?_, ?_, ?_, ?_, ?_⟩
    · simp [MemOpt.receiveStates, MemOpt.casState, hR]
    · simp [MemOpt.receiveStates, MemOpt.casState, hR,
        MemOpt.allowedEdge, MemOpt.EMPTY, MemOpt.WRITING, MemOpt.READY,
        MemOpt.READING]
    · cases hm : c.message <;>
        simp [MemOpt.receive, MemOpt.casState, hR, hm]
    · cases hm : c.message <;>
        simp [MemOpt.receive, MemOpt.casState, hR, hm]
    · intro v hv
      simp [MemOpt.receive, MemOpt.casState, hR, hv]
  · intro hR
    refine ⟨?_, ?_, ?_⟩ <;>
      simp [MemOpt.receiveStates, MemOpt.receive, MemOpt.casState, hR]

/-- C8 witness: the theorem evaluated on a concrete ready channel holding
the message 5. -/
theorem memopt_state_machine_witness :
    (((MemOpt.send (⟨some 5, MemOpt.READY⟩ : MemOpt.Channel Nat) 7).result =
        .ok () ↔
      (⟨some 5, MemOpt.READY⟩ : MemOpt.Channel Nat).state =
        MemOpt.EMPTY) ∧
    ((⟨some 5, MemOpt.READY⟩ : MemOpt.Channel Nat).state = MemOpt.EMPTY →
      MemOpt.sendStates (⟨some 5, MemOpt.READY⟩ : MemOpt.Channel Nat) =
        [MemOpt.EMPTY, MemOpt.WRITING, MemOpt.READY] ∧
      List.Chain' MemOpt.allowedEdge
        (MemOpt.sendStates (⟨some 5, MemOpt.READY⟩ : MemOpt.Channel Nat)) ∧
      (MemOpt.send (⟨some 5, MemOpt.READY⟩ : MemOpt.Channel Nat)
        7).state.state = MemOpt.READY ∧
      (MemOpt.send (⟨some 5, MemOpt.READY⟩ : MemOpt.Channel Nat)
        7).state.message = some 7) ∧
    ((⟨some 5, MemOpt.READY⟩ : MemOpt.Channel Nat).state ≠ MemOpt.EMPTY →
      (MemOpt.send (⟨some 5, MemOpt.READY⟩ : MemOpt.Channel Nat)
        7).state = ⟨some 5, MemOpt.READY⟩ ∧
      (MemOpt.send (⟨some 5, MemOpt.READY⟩ : MemOpt.Channel Nat)
        7).result = .error "cannot send more than one message!" ∧
      MemOpt.sendStates (⟨some 5, MemOpt.READY⟩ : MemOpt.Channel Nat) =
        [(⟨some 5, MemOpt.READY⟩ : MemOpt.Channel Nat).state]) ∧
    ((∃ v, (MemOpt.receive
        (⟨some 5, MemOpt.READY⟩ : MemOpt.Channel Nat)).result = .ok v) →
      (⟨some 5, MemOpt.READY⟩ : MemOpt.Channel Nat).state =
        MemOpt.READY) ∧
    ((⟨some 5, MemOpt.READY⟩ : MemOpt.Channel Nat).state = MemOpt.READY →
      MemOpt.receiveStates (⟨some 5, MemOpt.READY⟩ : MemOpt.Channel Nat) =
        [MemOpt.READY, MemOpt.READING] ∧
      List.Chain' MemOpt.allowedEdge
        (MemOpt.receiveStates
          (⟨some 5, MemOpt.READY⟩ : MemOpt.Channel Nat)) ∧
      (MemOpt.receive
        (⟨some 5, MemOpt.READY⟩ : MemOpt.Channel Nat)).state.state =
        MemOpt.READING ∧
      (MemOpt.receive
        (⟨some 5, MemOpt.READY⟩ : MemOpt.Channel Nat)).state.message =
        (⟨some 5, MemOpt.READY⟩ : MemOpt.Channel Nat).message ∧
      (∀ v, (⟨some 5, MemOpt.READY⟩ : MemOpt.Channel Nat).message =
          some v →
        (MemOpt.receive
          (⟨some 5, MemOpt.READY⟩ : MemOpt.Channel Nat)).result =
          .ok v)) ∧
    ((⟨some 5, MemOpt.READY⟩ : MemOpt.Channel Nat).state ≠ MemOpt.READY →
      (MemOpt.receive
        (⟨some 5, MemOpt.READY⟩ : MemOpt.Channel Nat)).state =
        ⟨some 5, MemOpt.READY⟩ ∧
      (MemOpt.receive
        (⟨some 5, MemOpt.READY⟩ : MemOpt.Channel Nat)).result =
        .error "no message available!" ∧
      MemOpt.receiveStates (⟨some 5, MemOpt.READY⟩ : MemOpt.Channel Nat) =
        [(⟨some 5, MemOpt.READY⟩ : MemOpt.Channel Nat).state])) :=
  memopt_state_machine Nat ⟨some 5, MemOpt.READY⟩ 7

/-- C5 counterexample: the claim asserts that uniformly across every
variant a `receive` with no prior completed `send` fails immediately at the
call site; in the blocking split variant (`blocking_oneshot_channel.rs`)
it does not — on a fresh channel the receiver is still parked in the
`ready.swap` / `park` loop after 100 iterations, and this variant's
receive has no failing outcome at all. -/
theorem blocking_receive_parks_instead_of_failing :
    Blocking.receiveLoop 100 (Blocking.new Nat) =
      Blocking.RecvResult.waiting := by decide

/-- C5 (amended): in the non-blocking variants — the shared two-flag
channel, the compact four-state channel and the reference-based split
channel — a `receive` with no prior completed `send` panics immediately,
and in the shared variants a `receive` after the message was already
received likewise panics (in the split variants a second receive cannot
even be expressed, the handle being consumed); the blocking split variant
instead parks in its `ready.swap` / `park` loop, remaining parked for any
number of iterations while no send has completed, and never fails. -/
theorem receive_failure_semantics (T : Type) (v : T) (fuel : Nat) :
    (TwoFlag.receive (TwoFlag.new T)).result =
      .error "no message available!" ∧
    (TwoFlag.receive
        (TwoFlag.receive (TwoFlag.send (TwoFlag.new T) v).state).state).result =
      .error "no message available!" ∧
    (MemOpt.receive (MemOpt.new T)).result =
      .error "no message available!" ∧
    (MemOpt.receive
        (MemOpt.receive (MemOpt.send (MemOpt.new T) v).state).state).result =
      .error "no message available!" ∧
    (NoArc.receive (NoArc.split (NoArc.new T)).2).result =
      .error "no message available!" ∧
    Blocking.receiveLoop fuel (Blocking.new T) =
      Blocking.RecvResult.waiting := by
  refine ⟨rfl, rfl, ?_, ?_, rfl, ?_⟩
  · simp [MemOpt.new, MemOpt.receive, MemOpt.casState, MemOpt.EMPTY,
      MemOpt.READY, MemOpt.READING]
  · simp [MemOpt.new, MemOpt.send, MemOpt.receive, MemOpt.casState,
      MemOpt.EMPTY, MemOpt.WRITING, MemOpt.READY, MemOpt.READING]
  · induction fuel with
    | zero => rfl
    | succ n ih => simpa [Blocking.receiveLoop, Blocking.new] using ih
